import Mathlib

/-!
Shallow embedding of the PING Python SDK client (`src/sdk/python/ping/client.py`),
covering the message-construction, canonicalization and signing logic together
with the key-management state of `PingClient`.

Python values that can appear in a message payload are modelled by the mutual
inductive family `PyValue` / `PyList` / `PyDict` (a Python `dict` is an
insertion-ordered association list, as in CPython 3.7+).  `json.dumps` with its
default arguments (`ensure_ascii=True`, separators `", "` and `": "`, no
`sort_keys`) is modelled by `dumps`; a non-JSON-serializable Python object is
the constructor `PyValue.pyobj`, on which `dumps` fails with the message of the
`TypeError` the `json` module raises there (cyclic structures, the module's
only other failure, cannot be represented in an inductive value, so every
serialization failure of the model is a `TypeError`).  Python exceptions are modelled by `PyExc`: the SDK's
own `PingError` is one constructor, and exceptions escaping from the `json`,
`binascii` and `nacl` libraries are `typeError` / `valueError`.

The Ed25519 primitive supplied by PyNaCl is external to the repository, so it
is abstracted as a record `Ed25519` of pure functions (public-key derivation
and detached signing over byte lists); every theorem below is proved for an
arbitrary such record.  Randomness (`SigningKey.generate`), the clock
(`time.time()`) and HTTP responses are passed as explicit parameters.
-/

namespace Ping

/-- A Python exception as observable by a caller of the SDK: either the SDK's
own `PingError (message, status_code)`, or a `TypeError` / `ValueError`
escaping from a library the SDK calls (`json`, `binascii`, `nacl`). -/
inductive PyExc where
  | ping (msg : String) (code : Int)
  | typeError (msg : String)
  | valueError (msg : String)
deriving DecidableEq, Repr

/-- Whether an exception is an instance of the SDK's `PingError` class
(the only error class `client.py` defines). -/
def PyExc.isPingError : PyExc → Bool
  | .ping _ _ => true
  | _ => false

mutual
/-- A Python value that can appear in a message: `None`, `bool`, `int`, `str`,
`list`, `dict` (insertion-ordered), or a non-JSON-serializable object
(`pyobj name` stands for an object of Python type `name`, e.g. a `set`). -/
inductive PyValue where
  | pynone : PyValue
  | pybool (b : Bool) : PyValue
  | pyint (i : Int) : PyValue
  | pystr (s : String) : PyValue
  | pylist (l : PyList) : PyValue
  | pydict (d : PyDict) : PyValue
  | pyobj (tyname : String) : PyValue
deriving DecidableEq, Repr

/-- A Python list of `PyValue`s. -/
inductive PyList where
  | nil : PyList
  | cons (v : PyValue) (rest : PyList) : PyList
deriving DecidableEq, Repr

/-- A Python dict with string keys, kept in insertion order (CPython 3.7+). -/
inductive PyDict where
  | nil : PyDict
  | cons (k : String) (v : PyValue) (rest : PyDict) : PyDict
deriving DecidableEq, Repr
end

/-- The keys of a dict, in insertion order. -/
def PyDict.keys : PyDict → List String
  | .nil => []
  | .cons k _ rest => k :: keys rest

/-- The first value bound to a key, if any (Python `d[k]` for dicts without
duplicate keys). -/
def PyDict.lookup (d : PyDict) (key : String) : Option PyValue :=
  match d with
  | .nil => Option.none
  | .cons k v rest => if k = key then Option.some v else rest.lookup key

/-- Concatenation of two dicts (the effect of `{**d1, **d2}` when the key sets
are disjoint: entries of `d1` in order, then entries of `d2`). -/
def PyDict.append (d1 d2 : PyDict) : PyDict :=
  match d1 with
  | .nil => d2
  | .cons k v rest => .cons k v (rest.append d2)

/-- Hex digit character (lowercase), as produced by `bytes.hex()` and
`nacl.encoding.HexEncoder`. -/
def hexDigit (n : Nat) : Char :=
  if n < 10 then Char.ofNat (48 + n) else Char.ofNat (87 + n)

/-- Numeric value of a hex digit character, upper or lower case, as accepted
by `binascii.unhexlify`. -/
def hexDigitVal (c : Char) : Option Nat :=
  let n := c.toNat
  if 48 ≤ n ∧ n ≤ 57 then Option.some (n - 48)
  else if 97 ≤ n ∧ n ≤ 102 then Option.some (n - 87)
  else if 65 ≤ n ∧ n ≤ 70 then Option.some (n - 55)
  else Option.none

/-- The character list of the lowercase hex encoding of a byte list. -/
def hexChars : List Nat → List Char
  | [] => []
  | b :: rest => hexDigit (b / 16) :: hexDigit (b % 16) :: hexChars rest

/-- Lowercase hex encoding of a byte list (`bytes.hex()` /
`HexEncoder.encode`). -/
def hexEncode (bs : List Nat) : String :=
  String.mk (hexChars bs)

/-- Hex decoding of a character list; `none` on odd length or a non-hex
digit, as `binascii.unhexlify` rejects those. -/
def hexDecodeChars : List Char → Option (List Nat)
  | [] => Option.some []
  | [_] => Option.none
  | c1 :: c2 :: rest =>
    match hexDigitVal c1, hexDigitVal c2, hexDecodeChars rest with
    | Option.some hi, Option.some lo, Option.some bs => Option.some ((16 * hi + lo) :: bs)
    | _, _, _ => Option.none

/-- Hex decoding of a string (`binascii.unhexlify` / `HexEncoder.decode`). -/
def hexDecode (s : String) : Option (List Nat) :=
  hexDecodeChars s.data

/-- The `\uXXXX` escape used by `json.dumps` with `ensure_ascii=True`;
code points beyond the BMP become a surrogate pair. -/
def uEscape (n : Nat) : String :=
  let hex4 : Nat → String := fun m =>
    String.mk [hexDigit (m / 4096 % 16), hexDigit (m / 256 % 16),
               hexDigit (m / 16 % 16), hexDigit (m % 16)]
  if n < 65536 then "\\u" ++ hex4 n
  else
    let m := n - 65536
    "\\u" ++ hex4 (55296 + m / 1024) ++ "\\u" ++ hex4 (56320 + m % 1024)

/-- How `json.dumps` (default `ensure_ascii=True`) renders one character of a
string: backslash, quote and the named control characters get two-character
escapes, every other character outside printable ASCII gets `\uXXXX`. -/
def escapeChar (c : Char) : String :=
  let n := c.toNat
  if n = 92 then "\\\\"
  else if n = 34 then "\\\""
  else if n = 10 then "\\n"
  else if n = 13 then "\\r"
  else if n = 9 then "\\t"
  else if n = 8 then "\\b"
  else if n = 12 then "\\f"
  else if n < 32 ∨ 126 < n then uEscape n
  else String.singleton c

/-- Rendering of a Python string by `json.dumps`: quoted and escaped. -/
def jsonQuote (s : String) : String :=
  "\"" ++ String.join (s.data.map escapeChar) ++ "\""

mutual
/-- Model of `json.dumps` with its default arguments, on a Python value: item
separator `", "`, key separator `": "`, insertion-order keys (no
`sort_keys`), and `TypeError` on a non-JSON-serializable object —
`client.py`'s `_sign` calls exactly `json.dumps(message)`. -/
def dumps : PyValue → Except String String
  | .pynone => .ok "null"
  | .pybool true => .ok "true"
  | .pybool false => .ok "false"
  | .pyint i => .ok (toString i)
  | .pystr s => .ok (jsonQuote s)
  | .pylist l =>
    match dumpsList l with
    | .error e => .error e
    | .ok body => .ok ("[" ++ body ++ "]")
  | .pydict d =>
    match dumpsDict d with
    | .error e => .error e
    | .ok body => .ok ("\x7b" ++ body ++ "\x7d")
  | .pyobj tyname =>
    .error ("Object of type " ++ tyname ++ " is not JSON serializable")

/-- Serialization of the elements of a list, joined by `", "`; the first
failure (left to right) is raised, as the `json` encoder streams. -/
def dumpsList : PyList → Except String String
  | .nil => .ok ""
  | .cons v rest =>
    match dumps v with
    | .error e => .error e
    | .ok sv =>
      match dumpsList rest with
      | .error e => .error e
      | .ok srest =>
        .ok (sv ++ (match rest with | .nil => "" | .cons _ _ => ", ") ++ srest)

/-- Serialization of the entries of a dict in insertion order, each rendered
`"key": value`, joined by `", "`; first failure raised. -/
def dumpsDict : PyDict → Except String String
  | .nil => .ok ""
  | .cons k v rest =>
    match dumps v with
    | .error e => .error e
    | .ok sv =>
      match dumpsDict rest with
      | .error e => .error e
      | .ok srest =>
        .ok (jsonQuote k ++ ": " ++ sv ++
             (match rest with | .nil => "" | .cons _ _ _ => ", ") ++ srest)
end

/-- UTF-8 bytes of a string (Python `str.encode("utf-8")`). -/
def utf8Bytes (s : String) : List Nat :=
  s.toUTF8.toList.map (fun b => b.toNat)

/-- The Ed25519 primitive provided by PyNaCl, abstracted as pure functions:
`derivePub` is `SigningKey(seed).verify_key` (raw public-key bytes from the
32-byte seed), `sign` is `SigningKey(seed).sign(msg).signature` (detached
signature bytes).  All theorems hold for an arbitrary implementation. -/
structure Ed25519 where
  derivePub : List Nat → List Nat
  sign : List Nat → List Nat → List Nat

/-- The mutable state of a `PingClient` instance: `base_url`, `agent_id` (`""`
when unregistered), `_signing_key` (`none` when unset, otherwise the 32-byte
seed held by the `nacl.signing.SigningKey`), and `_public_key` (`""` when no
key is set, otherwise the hex-encoded verify key). -/
structure ClientState where
  base_url : String
  agent_id : String
  signing_key : Option (List Nat)
  public_key : String
deriving DecidableEq, Repr

/-- The `PingError` raised by `_require_agent` when `self.agent_id` is falsy. -/
def mustRegisterError : PyExc :=
  .ping "Must register first (call register())" 400

/-- The `PingError` raised by `_require_keys` when `self._signing_key` is
falsy; this is the code's realization of the spec's `KeyNotConfigured`. -/
def keyNotConfiguredError : PyExc :=
  .ping "Must generate or set keys first" 400

/-- The `PingError` raised by `generate_keys` / `set_keys` when PyNaCl is not
installed (`NACL_AVAILABLE` false). -/
def pynaclMissingError : PyExc :=
  .ping "PyNaCl not installed. Run: pip install pynacl" 500

/-- Model of `PingClient.generate_keys`, with the library's secure random 32-byte seed
passed explicitly as `freshSeed` and `NACL_AVAILABLE` as `available`.
Returns the updated state and the `{"private_key", "public_key"}` dict
(both hex-encoded). -/
def generate_keys (c : Ed25519) (available : Bool) (freshSeed : List Nat)
    (s : ClientState) : ClientState × Except PyExc (String × String) :=
  if available then
    let pub := hexEncode (c.derivePub freshSeed)
    ({ s with signing_key := Option.some freshSeed, public_key := pub },
     .ok (hexEncode freshSeed, pub))
  else
    (s, .error pynaclMissingError)

/-- Model of `PingClient.set_keys`: `SigningKey(private_key, encoder=HexEncoder)`.
`HexEncoder.decode` (= `binascii.unhexlify`) raises `binascii.Error`
(a `ValueError`) on odd length or a non-hex digit; `SigningKey.__init__`
raises `nacl.exceptions.ValueError` (message `"The seed must be a 32 byte
long bytes sequence"`) when the decoded seed is not 32 bytes long (its
`TypeError` belongs to the non-bytes check, unreachable here since
`HexEncoder.decode` always returns bytes). -/
def set_keys (c : Ed25519) (available : Bool) (private_key : String)
    (s : ClientState) : ClientState × Except PyExc Unit :=
  if available then
    match hexDecode private_key with
    | Option.none =>
      (s, .error (.valueError
        (if private_key.length % 2 = 1 then "Odd-length string"
         else "Non-hexadecimal digit found")))
    | Option.some seed =>
      if seed.length = 32 then
        ({ s with signing_key := Option.some seed,
                  public_key := hexEncode (c.derivePub seed) }, .ok ())
      else
        (s, .error (.valueError "The seed must be a 32 byte long bytes sequence"))
  else
    (s, .error pynaclMissingError)

/-- The message dict built by `PingClient.send` before signing, with its six
fields in the literal's fixed order; `payload or {}` replaces a missing (or
empty, which is the same dict) payload by `{}`, `reply_to` may be `None`, and
`timestamp` is `int(time.time() * 1000)`, passed here as `nowMs`. -/
def buildMessage (agent_id to_agent msg_type : String) (payload : Option PyDict)
    (reply_to : Option String) (nowMs : Int) : PyDict :=
  .cons "type" (.pystr msg_type)
    (.cons "from" (.pystr agent_id)
      (.cons "to" (.pystr to_agent)
        (.cons "payload" (.pydict (payload.getD PyDict.nil))
          (.cons "replyTo"
            (match reply_to with
             | Option.none => PyValue.pynone
             | Option.some r => PyValue.pystr r)
            (.cons "timestamp" (.pyint nowMs) PyDict.nil)))))

/-- Model of `PingClient._sign`: `json.dumps(message).encode("utf-8")`, sign, and
return `signed.signature.hex()` (lowercase hex of the detached signature).
The `TypeError` raised by `json.dumps` on a non-serializable value propagates
uncaught. -/
def _sign (c : Ed25519) (seed : List Nat) (message : PyValue) :
    Except PyExc String :=
  match dumps message with
  | .error m => .error (.typeError m)
  | .ok serialized => .ok (hexEncode (c.sign seed (utf8Bytes serialized)))

/-- Model of `PingClient.send`: `_require_agent`, then `_require_keys`, then build the
message dict, sign it, and POST `{**message, "signature": signature}`.  The
returned dict models the request body handed to `_request`; the clock reading
`int(time.time() * 1000)` is the parameter `nowMs`.  No branch assigns any
attribute of `self`, so the state component is returned unchanged. -/
def send (c : Ed25519) (nowMs : Int) (s : ClientState) (to_agent msg_type : String)
    (payload : Option PyDict) (reply_to : Option String) :
    ClientState × Except PyExc PyDict :=
  if s.agent_id = "" then
    (s, .error mustRegisterError)
  else
    match s.signing_key with
    | Option.none => (s, .error keyNotConfiguredError)
    | Option.some seed =>
      let message := buildMessage s.agent_id to_agent msg_type payload reply_to nowMs
      match _sign c seed (.pydict message) with
      | .error e => (s, .error e)
      | .ok sig =>
        (s, .ok (message.append (.cons "signature" (.pystr sig) PyDict.nil)))

/-- Model of `PingClient.register`: when `self._public_key` is falsy it first calls
`generate_keys` (whose `PingError` propagates), then POSTs `/agents`; the
HTTP outcome is abstracted by `httpOk` and the server-assigned id by
`respId`.  On success it assigns `self.agent_id = data["id"]`. -/
def register (c : Ed25519) (available : Bool) (freshSeed : List Nat)
    (httpOk : Bool) (respId : String) (s : ClientState) :
    ClientState × Except PyExc String :=
  let afterKeys : ClientState × Except PyExc Unit :=
    if s.public_key = "" then
      match generate_keys c available freshSeed s with
      | (s1, .error e) => (s1, .error e)
      | (s1, .ok _) => (s1, .ok ())
    else (s, .ok ())
  match afterKeys with
  | (s1, .error e) => (s1, .error e)
  | (s1, .ok _) =>
    if httpOk then ({ s1 with agent_id := respId }, .ok respId)
    else (s1, .error (.ping "HTTP error" 500))

/-- Model of `PingClient.delete_agent`: `_require_agent`, DELETE, then
`self.agent_id = ""` on success. -/
def delete_agent (httpOk : Bool) (s : ClientState) :
    ClientState × Except PyExc Unit :=
  if s.agent_id = "" then (s, .error mustRegisterError)
  else if httpOk then ({ s with agent_id := "" }, .ok ())
  else (s, .error (.ping "HTTP error" 500))

/-- One public operation of `PingClient`, with its non-state inputs (the
randomness a key generation consumes, the clock reading a send consumes, and
the abstracted HTTP outcome).  The read-only operations (`get_agent`,
`directory`, `search`, `contacts`, `add_contact`, `remove_contact`, `inbox`,
`history`, `ack`) assign no attribute of `self` in the source, and the
convenience senders (`text`, `ping`, `pong`, `request`, `respond`, `propose`,
`signature`) delegate to `send`. -/
inductive Op where
  | generateKeys (available : Bool) (freshSeed : List Nat)
  | setKeys (available : Bool) (privateKey : String)
  | register (available : Bool) (freshSeed : List Nat) (httpOk : Bool) (respId : String)
  | deleteAgent (httpOk : Bool)
  | send (nowMs : Int) (to_agent msgType : String) (payload : Option PyDict) (replyTo : Option String)
  | getAgent (agentId : String)
  | directory
  | search (q capability provider : Option String)
  | contacts
  | addContact (contactId : String) (contactAlias notes : Option String)
  | removeContact (contactId : String)
  | inbox (includeAll : Bool)
  | history (otherId : String) (limit : Int)
  | ack (messageId : String)
  | text (nowMs : Int) (to_agent txt : String)
  | pingMsg (nowMs : Int) (to_agent : String)
  | pong (nowMs : Int) (to_agent : String) (replyTo : Option String)
  | requestMsg (nowMs : Int) (to_agent action : String) (data : PyValue)
  | respond (nowMs : Int) (to_agent : String) (result : PyValue) (replyTo : Option String)
  | propose (nowMs : Int) (to_agent : String) (proposal : PyDict)
  | signatureMsg (nowMs : Int) (to_agent sig : String) (replyTo : Option String)

/-- The effect of one operation on the client state (result values dropped). -/
def stepState (c : Ed25519) (op : Op) (s : ClientState) : ClientState :=
  match op with
  | .generateKeys a f => (generate_keys c a f s).1
  | .setKeys a k => (set_keys c a k s).1
  | .register a f h r => (register c a f h r s).1
  | .deleteAgent h => (delete_agent h s).1
  | .send n to_agent mt p r => (send c n s to_agent mt p r).1
  | .getAgent _ => s
  | .directory => s
  | .search _ _ _ => s
  | .contacts => s
  | .addContact _ _ _ => s
  | .removeContact _ => s
  | .inbox _ => s
  | .history _ _ => s
  | .ack _ => s
  | .text n to_agent txt =>
    (send c n s to_agent "text" (Option.some (.cons "text" (.pystr txt) .nil)) Option.none).1
  | .pingMsg n to_agent => (send c n s to_agent "ping" (Option.some .nil) Option.none).1
  | .pong n to_agent r => (send c n s to_agent "pong" (Option.some .nil) r).1
  | .requestMsg n to_agent action data =>
    (send c n s to_agent "request"
      (Option.some (.cons "action" (.pystr action) (.cons "data" data .nil)))
      Option.none).1
  | .respond n to_agent result r =>
    (send c n s to_agent "response" (Option.some (.cons "result" result .nil)) r).1
  | .propose n to_agent proposal => (send c n s to_agent "proposal" (Option.some proposal) Option.none).1
  | .signatureMsg n to_agent sig r =>
    (send c n s to_agent "signature" (Option.some (.cons "signature" (.pystr sig) .nil)) r).1

/-- Whether an operation is one that may assign the signing key: the two key
operations themselves, and `register`, which invokes `generate_keys` when no
public key is present yet. -/
def keyOp : Op → Bool
  | .generateKeys _ _ => true
  | .setKeys _ _ => true
  | .register _ _ _ _ => true
  | _ => false

/-- Rendering of the `replyTo` field value by `json.dumps`: `None` becomes
`null`, a string is quoted. -/
def replyToStr : Option String → String
  | Option.none => "null"
  | Option.some r => jsonQuote r

/-- The byte sequence (as a string, before UTF-8 encoding) that `json.dumps`
produces for the message built by `send`, as a function of the six content
field values alone, with the field order fixed by the dict literal in `send`:
`type`, `from`, `to`, `payload`, `replyTo`, `timestamp`.  Here `sp` is the
serialization of the payload field. -/
def envelopeSerialization (msg_type agent_id to_agent sp : String)
    (r : Option String) (n : Int) : String :=
  "\x7b" ++ jsonQuote "type" ++ ": " ++ jsonQuote msg_type ++ ", " ++
  jsonQuote "from" ++ ": " ++ jsonQuote agent_id ++ ", " ++
  jsonQuote "to" ++ ": " ++ jsonQuote to_agent ++ ", " ++
  jsonQuote "payload" ++ ": " ++ sp ++ ", " ++
  jsonQuote "replyTo" ++ ": " ++ replyToStr r ++ ", " ++
  jsonQuote "timestamp" ++ ": " ++ toString n ++ "\x7d"

/-- The body of a successful send result (`PyDict.nil` on an error, which no
caller below reaches). -/
def sentBody : Except PyExc PyDict → PyDict
  | .ok b => b
  | .error _ => PyDict.nil

/-- Serializing the message dict built by `send` yields exactly
`envelopeSerialization` of the six field values, in the fixed field order,
whenever the payload field itself serializes. -/
theorem dumps_buildMessage (a t mt : String) (p : Option PyDict) (r : Option String)
    (n : Int) (sp : String) (hp : dumps (.pydict (p.getD PyDict.nil)) = .ok sp) :
    dumps (.pydict (buildMessage a t mt p r n)) =
      .ok (envelopeSerialization mt a t sp r n) := by
  cases hb : dumpsDict (p.getD PyDict.nil) with
  | error e =>
    rw [show dumps (PyValue.pydict (p.getD PyDict.nil)) = Except.error e by
      simp only [dumps, hb]] at hp
    exact Except.noConfusion hp
  | ok body =>
    simp only [dumps, hb] at hp
    injection hp with hp
    subst hp
    cases r <;>
      simp only [buildMessage, dumps, dumpsDict, hb, replyToStr,
        envelopeSerialization, String.append_assoc] <;>
      simp [String.append_assoc]

/-- When the payload field fails to serialize, the whole message dict built by
`send` fails to serialize with the same error (the `type`, `from` and `to`
entries before it are strings, which always serialize). -/
theorem dumps_buildMessage_error (a t mt : String) (p : Option PyDict)
    (r : Option String) (n : Int) (m : String)
    (hp : dumps (.pydict (p.getD PyDict.nil)) = .error m) :
    dumps (.pydict (buildMessage a t mt p r n)) = .error m := by
  cases hb : dumpsDict (p.getD PyDict.nil) with
  | error e =>
    simp only [dumps, hb] at hp
    injection hp with hp
    subst hp
    simp only [buildMessage, dumps, dumpsDict, hb]
  | ok body =>
    rw [show dumps (PyValue.pydict (p.getD PyDict.nil)) =
        Except.ok ("\x7b" ++ body ++ "\x7d") by simp only [dumps, hb]] at hp
    exact Except.noConfusion hp

/-- The keys of the message dict built by `send`, in order: exactly the six
content fields of the dict literal, with no `signature` key. -/
theorem buildMessage_keys (a t mt : String) (p : Option PyDict)
    (r : Option String) (n : Int) :
    (buildMessage a t mt p r n).keys =
      ["type", "from", "to", "payload", "replyTo", "timestamp"] := rfl

/-- Unfolding of a successful `send`: with an agent id, a signing key, and a
serializable message, the result is the message dict with the signature over
the serialized message bytes appended. -/
theorem send_ok (c : Ed25519) (nowMs : Int) (s : ClientState)
    (to_agent msg_type : String) (payload : Option PyDict)
    (reply_to : Option String) (seed : List Nat) (serialized : String)
    (ha : ¬ s.agent_id = "") (hk : s.signing_key = Option.some seed)
    (hd : dumps (.pydict (buildMessage s.agent_id to_agent msg_type payload reply_to nowMs)) =
      .ok serialized) :
    send c nowMs s to_agent msg_type payload reply_to =
      (s, .ok ((buildMessage s.agent_id to_agent msg_type payload reply_to nowMs).append
        (.cons "signature"
          (.pystr (hexEncode (c.sign seed (utf8Bytes serialized)))) PyDict.nil))) := by
  simp only [send, if_neg ha, hk, _sign, hd]

/-- The state component of `send` is always the caller's state: no branch of
`send` assigns an attribute of `self`. -/
theorem send_fst (c : Ed25519) (nowMs : Int) (s : ClientState)
    (to_agent msg_type : String) (payload : Option PyDict)
    (reply_to : Option String) :
    (send c nowMs s to_agent msg_type payload reply_to).1 = s := by
  rw [send]
  split
  · rfl
  · split
    · rfl
    · dsimp only
      split <;> rfl

/-- Decoding a hex digit produced by `hexDigit` recovers the digit. -/
theorem hexDigitVal_hexDigit (n : Nat) (h : n < 16) :
    hexDigitVal (hexDigit n) = Option.some n := by
  interval_cases n <;> decide

/-- Round trip of the hex codec on byte lists: `binascii.unhexlify` inverts
`bytes.hex()`. -/
theorem hexDecode_hexEncode (bs : List Nat) (h : ∀ b ∈ bs, b < 256) :
    hexDecode (hexEncode bs) = Option.some bs := by
  show hexDecodeChars (hexChars bs) = Option.some bs
  induction bs with
  | nil => rfl
  | cons b rest ih =>
    have hb : b < 256 := h b (List.mem_cons_self b rest)
    have h1 : b / 16 < 16 := Nat.div_lt_of_lt_mul (by omega)
    have h2 : b % 16 < 16 := Nat.mod_lt _ (by omega)
    have ih2 := ih (fun x hx => h x (List.mem_cons_of_mem _ hx))
    simp only [hexChars, hexDecodeChars, hexDigitVal_hexDigit _ h1,
      hexDigitVal_hexDigit _ h2, ih2]
    congr 2
    omega

/-- A concrete Ed25519 implementation used only to instantiate theorems at
concrete inputs; the theorems themselves hold for every implementation. -/
def cZero : Ed25519 :=
  ⟨fun seed => seed, fun _ _ => []⟩

/-- A concrete registered client state holding a signing key. -/
def stReg : ClientState :=
  ⟨"http://localhost:3100", "agent-A", Option.some (List.replicate 32 0),
   hexEncode (List.replicate 32 0)⟩

/-- A concrete fresh client state: unregistered, no key. -/
def stFresh : ClientState :=
  ⟨"http://localhost:3100", "", Option.none, ""⟩

/-- A concrete registered client state with no key set. -/
def stRegNoKey : ClientState :=
  ⟨"http://localhost:3100", "agent-A", Option.none, ""⟩

/-- C1: for every message envelope built by `send` (fields `type`, `from`,
`to`, `payload`, `replyTo`, `timestamp`), the signature returned by `_sign`
is computed over the byte serialization of exactly those six content fields —
the transmitted body is that six-field dict with the `signature` field
appended afterwards, and `signature` is not among the keys of the dict that
was serialized and signed. -/
theorem send_signature_covers_exactly_content_fields
    (c : Ed25519) (nowMs : Int) (s : ClientState) (to_agent msg_type : String)
    (payload : Option PyDict) (reply_to : Option String) (seed : List Nat)
    (serialized : String)
    (ha : ¬ s.agent_id = "") (hk : s.signing_key = Option.some seed)
    (hd : dumps (.pydict (buildMessage s.agent_id to_agent msg_type payload reply_to nowMs)) =
      .ok serialized) :
    send c nowMs s to_agent msg_type payload reply_to =
      (s, .ok ((buildMessage s.agent_id to_agent msg_type payload reply_to nowMs).append
        (.cons "signature"
          (.pystr (hexEncode (c.sign seed (utf8Bytes serialized)))) PyDict.nil)))
    ∧ (buildMessage s.agent_id to_agent msg_type payload reply_to nowMs).keys =
        ["type", "from", "to", "payload", "replyTo", "timestamp"]
    ∧ "signature" ∉ (buildMessage s.agent_id to_agent msg_type payload reply_to nowMs).keys :=
  ⟨send_ok c nowMs s to_agent msg_type payload reply_to seed serialized ha hk hd,
   buildMessage_keys s.agent_id to_agent msg_type payload reply_to nowMs,
   by rw [buildMessage_keys]; decide⟩

/-- Closed instance of `send_signature_covers_exactly_content_fields` at a
concrete client state and message, with each hypothesis evaluated. -/
theorem send_signature_covers_exactly_content_fields_witness :
    (¬ stReg.agent_id = "")
    ∧ stReg.signing_key = Option.some (List.replicate 32 0)
    ∧ dumps (.pydict (buildMessage stReg.agent_id "agent-B" "text"
        Option.none Option.none 1700000000000)) =
      .ok "\x7b\"type\": \"text\", \"from\": \"agent-A\", \"to\": \"agent-B\", \"payload\": \x7b\x7d, \"replyTo\": null, \"timestamp\": 1700000000000\x7d"
    ∧ (send cZero 1700000000000 stReg "agent-B" "text" Option.none Option.none =
        (stReg, .ok ((buildMessage stReg.agent_id "agent-B" "text" Option.none Option.none 1700000000000).append
          (.cons "signature"
            (.pystr (hexEncode (cZero.sign (List.replicate 32 0)
              (utf8Bytes "\x7b\"type\": \"text\", \"from\": \"agent-A\", \"to\": \"agent-B\", \"payload\": \x7b\x7d, \"replyTo\": null, \"timestamp\": 1700000000000\x7d")))) PyDict.nil)))
      ∧ (buildMessage stReg.agent_id "agent-B" "text" Option.none Option.none 1700000000000).keys =
          ["type", "from", "to", "payload", "replyTo", "timestamp"]
      ∧ "signature" ∉ (buildMessage stReg.agent_id "agent-B" "text" Option.none Option.none 1700000000000).keys) :=
  ⟨by decide, rfl, rfl,
   send_signature_covers_exactly_content_fields cZero 1700000000000 stReg "agent-B"
     "text" Option.none Option.none (List.replicate 32 0) _ (by decide) rfl rfl⟩

/-- C2: serialization is deterministic with a fixed field order — the byte
serialization `json.dumps` produces for the message built by `send` equals
`envelopeSerialization`, a fixed-order function of the six content field
values alone (so equal message mappings serialize byte-identically, and the
field order is the dict literal's, not the iteration order of an unordered
structure), and the key order is always the same six keys. -/
theorem serialization_deterministic_fixed_field_order
    (a t mt : String) (p : Option PyDict) (r : Option String) (n : Int)
    (sp : String) (hp : dumps (.pydict (p.getD PyDict.nil)) = .ok sp) :
    (buildMessage a t mt p r n).keys =
      ["type", "from", "to", "payload", "replyTo", "timestamp"]
    ∧ dumps (.pydict (buildMessage a t mt p r n)) =
        .ok (envelopeSerialization mt a t sp r n) :=
  ⟨buildMessage_keys a t mt p r n, dumps_buildMessage a t mt p r n sp hp⟩

/-- Closed instance of `serialization_deterministic_fixed_field_order` at a
concrete message, with the hypothesis evaluated. -/
theorem serialization_deterministic_fixed_field_order_witness :
    dumps (.pydict ((Option.none : Option PyDict).getD PyDict.nil)) = .ok "\x7b\x7d"
    ∧ ((buildMessage "agent-A" "agent-B" "text" Option.none Option.none 1700000000000).keys =
        ["type", "from", "to", "payload", "replyTo", "timestamp"]
      ∧ dumps (.pydict (buildMessage "agent-A" "agent-B" "text" Option.none Option.none 1700000000000)) =
          .ok (envelopeSerialization "text" "agent-A" "agent-B" "\x7b\x7d" Option.none 1700000000000)) :=
  ⟨rfl,
   serialization_deterministic_fixed_field_order "agent-A" "agent-B" "text"
     Option.none Option.none 1700000000000 "\x7b\x7d" rfl⟩

/-- C3 counterexample: a call to `send` made while no signing key is present
need not fail with the `KeyNotConfigured` error — when the agent id is also
unset, `_require_agent` runs first and the call fails with the
must-register `PingError` instead. -/
theorem send_no_key_unregistered_fails_with_register_error :
    stFresh.signing_key = Option.none
    ∧ send cZero 0 stFresh "agent-B" "text" Option.none Option.none =
        (stFresh, .error mustRegisterError)
    ∧ mustRegisterError ≠ keyNotConfiguredError :=
  ⟨rfl, rfl, by decide⟩

/-- C3 amended: for every call to `send` made with the agent id set while no
signing key is present, the call fails with the `KeyNotConfigured` error
(`_require_keys`'s `PingError`), and it does so for every crypto
implementation, clock reading and payload — before any envelope is
serialized or signed. -/
theorem send_without_key_fails_key_not_configured
    (c : Ed25519) (nowMs : Int) (s : ClientState) (to_agent msg_type : String)
    (payload : Option PyDict) (reply_to : Option String)
    (ha : ¬ s.agent_id = "") (hk : s.signing_key = Option.none) :
    send c nowMs s to_agent msg_type payload reply_to =
      (s, .error keyNotConfiguredError) := by
  simp only [send, if_neg ha, hk]

/-- Closed instance of `send_without_key_fails_key_not_configured` at a
concrete registered key-less state, with each hypothesis evaluated. -/
theorem send_without_key_fails_key_not_configured_witness :
    (¬ stRegNoKey.agent_id = "")
    ∧ stRegNoKey.signing_key = Option.none
    ∧ send cZero 0 stRegNoKey "agent-B" "text" Option.none Option.none =
        (stRegNoKey, .error keyNotConfiguredError) :=
  ⟨by decide, rfl,
   send_without_key_fails_key_not_configured cZero 0 stRegNoKey "agent-B" "text"
     Option.none Option.none (by decide) rfl⟩

/-- A concrete payload holding a non-JSON-serializable value (a Python
`set`). -/
def badPayload : PyDict :=
  .cons "bad" (.pyobj "set") PyDict.nil

/-- C4 counterexample: a `send` whose payload is not JSON-serializable fails,
but with the `TypeError` raised by `json.dumps` — not with a
`SerializationError` of the component's error taxonomy: the propagated
exception is not even an instance of `PingError`, the only error class the
component defines. -/
theorem send_unserializable_payload_raises_type_error :
    send cZero 0 stReg "agent-B" "text" (Option.some badPayload) Option.none =
      (stReg, .error (.typeError "Object of type set is not JSON serializable"))
    ∧ (PyExc.typeError "Object of type set is not JSON serializable").isPingError = false :=
  ⟨rfl, rfl⟩

/-- C4 amended: for every call to `send` whose payload is not
JSON-serializable, the call fails by propagating the `json` serializer's own
exception uncaught, and that exception is not a `PingError` — the code
defines no `SerializationError` and catches nothing around `json.dumps`.
For a non-JSON-representable value the serializer raises `TypeError`, the
case proved here; a cyclic payload (unrepresentable as an inductive value)
raises the serializer's `ValueError`, likewise not a `PingError`. -/
theorem send_unserializable_payload_propagates_type_error
    (c : Ed25519) (nowMs : Int) (s : ClientState) (to_agent msg_type : String)
    (payload : Option PyDict) (reply_to : Option String) (seed : List Nat)
    (m : String)
    (ha : ¬ s.agent_id = "") (hk : s.signing_key = Option.some seed)
    (hp : dumps (.pydict (payload.getD PyDict.nil)) = .error m) :
    send c nowMs s to_agent msg_type payload reply_to =
      (s, .error (.typeError m))
    ∧ (PyExc.typeError m).isPingError = false := by
  refine ⟨?_, rfl⟩
  have hmsg := dumps_buildMessage_error s.agent_id to_agent msg_type payload
    reply_to nowMs m hp
  simp only [send, if_neg ha, hk, _sign, hmsg]

/-- Closed instance of `send_unserializable_payload_propagates_type_error` at
a concrete state and payload, with each hypothesis evaluated. -/
theorem send_unserializable_payload_propagates_type_error_witness :
    (¬ stReg.agent_id = "")
    ∧ stReg.signing_key = Option.some (List.replicate 32 0)
    ∧ dumps (.pydict ((Option.some badPayload).getD PyDict.nil)) =
        .error "Object of type set is not JSON serializable"
    ∧ (send cZero 0 stReg "agent-B" "text" (Option.some badPayload) Option.none =
        (stReg, .error (.typeError "Object of type set is not JSON serializable"))
      ∧ (PyExc.typeError "Object of type set is not JSON serializable").isPingError = false) :=
  ⟨by decide, rfl, rfl,
   send_unserializable_payload_propagates_type_error cZero 0 stReg "agent-B"
     "text" (Option.some badPayload) Option.none (List.replicate 32 0)
     "Object of type set is not JSON serializable" (by decide) rfl rfl⟩

/-- C5 counterexample: `set_keys` on an input that is not valid hex fails,
but with `binascii.Error` (a `ValueError`) from `HexEncoder.decode` — not
with an `InvalidKeyFormat` error of the component's taxonomy: the propagated
exception is not an instance of `PingError`. -/
theorem set_keys_invalid_hex_raises_value_error :
    (set_keys cZero true "zz" stFresh).2 =
      .error (.valueError "Non-hexadecimal digit found")
    ∧ (set_keys cZero true "zz" stFresh).1 = stFresh
    ∧ (PyExc.valueError "Non-hexadecimal digit found").isPingError = false :=
  ⟨rfl, rfl, rfl⟩

/-- C5 amended: for every input to `set_keys` that is not valid hex of the
expected length (32 bytes, 64 hex characters), the call fails with the
underlying library's exception — `binascii.Error` (a `ValueError`) for
malformed hex, `nacl.exceptions.ValueError` for a wrong-length seed — which
is not a `PingError`; the client state is unchanged. -/
theorem set_keys_invalid_key_fails_with_library_error
    (c : Ed25519) (k : String) (s : ClientState)
    (hbad : hexDecode k = Option.none
      ∨ ∃ seed, hexDecode k = Option.some seed ∧ ¬ seed.length = 32) :
    (set_keys c true k s).1 = s
    ∧ ∃ e, (set_keys c true k s).2 = .error e ∧ e.isPingError = false := by
  rcases hbad with hnone | ⟨seed, hsome, hlen⟩
  · refine ⟨?_, .valueError (if k.length % 2 = 1 then "Odd-length string"
      else "Non-hexadecimal digit found"), ?_, rfl⟩ <;>
      simp only [set_keys, if_pos, hnone, if_true]
  · refine ⟨?_, .valueError "The seed must be a 32 byte long bytes sequence", ?_, rfl⟩ <;>
      simp only [set_keys, if_pos, hsome, if_neg hlen, if_true]

/-- Closed instance of `set_keys_invalid_key_fails_with_library_error` at a
concrete valid-hex key of the wrong length (one byte instead of 32), with
the hypothesis evaluated. -/
theorem set_keys_invalid_key_fails_with_library_error_witness :
    (hexDecode "00" = Option.none
      ∨ ∃ seed, hexDecode "00" = Option.some seed ∧ ¬ seed.length = 32)
    ∧ ((set_keys cZero true "00" stFresh).1 = stFresh
      ∧ ∃ e, (set_keys cZero true "00" stFresh).2 = .error e ∧ e.isPingError = false) :=
  ⟨Or.inr ⟨[0], rfl, by decide⟩,
   set_keys_invalid_key_fails_with_library_error cZero "00" stFresh
     (Or.inr ⟨[0], rfl, by decide⟩)⟩

/-- C6 counterexample: two calls to `send` with identical caller-supplied
arguments (`to`, `msg_type`, `payload`, `reply_to`) but different clock
readings produce envelopes with different timestamps — the timestamp is
`int(time.time() * 1000)` computed inside `send`, not a value supplied by
the caller (`send` has no timestamp parameter). -/
theorem send_timestamp_from_clock_not_caller :
    (sentBody (send cZero 1 stReg "agent-B" "text" Option.none Option.none).2).lookup
        "timestamp" = Option.some (.pyint 1)
    ∧ (sentBody (send cZero 2 stReg "agent-B" "text" Option.none Option.none).2).lookup
        "timestamp" = Option.some (.pyint 2)
    ∧ (1 : Int) ≠ 2 :=
  ⟨rfl, rfl, by decide⟩

/-- C6 amended: the `timestamp` field of every envelope built by `send` is
the integer count of milliseconds since the epoch read from the system clock
during the call (`int(time.time() * 1000)`), not a caller-provided value. -/
theorem send_timestamp_equals_clock_reading
    (c : Ed25519) (nowMs : Int) (s : ClientState) (to_agent msg_type : String)
    (payload : Option PyDict) (reply_to : Option String) (seed : List Nat)
    (serialized : String)
    (ha : ¬ s.agent_id = "") (hk : s.signing_key = Option.some seed)
    (hd : dumps (.pydict (buildMessage s.agent_id to_agent msg_type payload reply_to nowMs)) =
      .ok serialized) :
    (sentBody (send c nowMs s to_agent msg_type payload reply_to).2).lookup
      "timestamp" = Option.some (.pyint nowMs) := by
  rw [send_ok c nowMs s to_agent msg_type payload reply_to seed serialized ha hk hd]
  simp [sentBody, buildMessage, PyDict.append, PyDict.lookup]

/-- Closed instance of `send_timestamp_equals_clock_reading` at a concrete
state and message, with each hypothesis evaluated. -/
theorem send_timestamp_equals_clock_reading_witness :
    (¬ stReg.agent_id = "")
    ∧ stReg.signing_key = Option.some (List.replicate 32 0)
    ∧ dumps (.pydict (buildMessage stReg.agent_id "agent-B" "text"
        Option.none Option.none 1700000000000)) =
      .ok "\x7b\"type\": \"text\", \"from\": \"agent-A\", \"to\": \"agent-B\", \"payload\": \x7b\x7d, \"replyTo\": null, \"timestamp\": 1700000000000\x7d"
    ∧ (sentBody (send cZero 1700000000000 stReg "agent-B" "text"
        Option.none Option.none).2).lookup "timestamp" =
      Option.some (.pyint 1700000000000) :=
  ⟨by decide, rfl, rfl,
   send_timestamp_equals_clock_reading cZero 1700000000000 stReg "agent-B" "text"
     Option.none Option.none (List.replicate 32 0) _ (by decide) rfl rfl⟩

/-- C7: round-trip key encoding — loading the hex-encoded private key that
`generate_keys` returned via `set_keys` reconstructs the same key material:
the stored seed is the generated seed, and the public key `set_keys` derives
equals the `public_key` component that `generate_keys` returned. -/
theorem generated_key_hex_roundtrip
    (c : Ed25519) (s s2 : ClientState) (seed : List Nat)
    (hlen : seed.length = 32) (hbytes : ∀ b ∈ seed, b < 256) :
    (generate_keys c true seed s).2 =
      .ok (hexEncode seed, hexEncode (c.derivePub seed))
    ∧ (set_keys c true (hexEncode seed) s2).1.signing_key = Option.some seed
    ∧ (set_keys c true (hexEncode seed) s2).1.public_key =
        hexEncode (c.derivePub seed)
    ∧ (set_keys c true (hexEncode seed) s2).2 = .ok () := by
  have hdec := hexDecode_hexEncode seed hbytes
  refine ⟨rfl, ?_, ?_, ?_⟩ <;> simp [set_keys, hdec, hlen]

/-- Closed instance of `generated_key_hex_roundtrip` at a concrete 32-byte
seed, with each hypothesis evaluated. -/
theorem generated_key_hex_roundtrip_witness :
    (List.replicate 32 0).length = 32
    ∧ (∀ b ∈ List.replicate 32 0, b < 256)
    ∧ ((generate_keys cZero true (List.replicate 32 0) stFresh).2 =
        .ok (hexEncode (List.replicate 32 0),
             hexEncode (cZero.derivePub (List.replicate 32 0)))
      ∧ (set_keys cZero true (hexEncode (List.replicate 32 0)) stFresh).1.signing_key =
          Option.some (List.replicate 32 0)
      ∧ (set_keys cZero true (hexEncode (List.replicate 32 0)) stFresh).1.public_key =
          hexEncode (cZero.derivePub (List.replicate 32 0))
      ∧ (set_keys cZero true (hexEncode (List.replicate 32 0)) stFresh).2 = .ok ()) :=
  ⟨by decide, by decide,
   generated_key_hex_roundtrip cZero stFresh stFresh (List.replicate 32 0)
     (by decide) (by decide)⟩

/-- An operation's step never turns a set signing key back into an unset one
(contrapositive form): if the key is unset after the step, it was unset
before. -/
theorem stepState_never_unsets_key (c : Ed25519) (op : Op) (s : ClientState)
    (h : (stepState c op s).signing_key = Option.none) :
    s.signing_key = Option.none := by
  cases op with
  | generateKeys a f =>
    cases a
    · simpa [stepState, generate_keys] using h
    · simp [stepState, generate_keys] at h
  | setKeys a k =>
    cases a
    · simpa [stepState, set_keys] using h
    · rcases hdec : hexDecode k with _ | seed
      · simpa [stepState, set_keys, hdec] using h
      · by_cases hlen : seed.length = 32
        · simp [stepState, set_keys, hdec, hlen] at h
        · simpa [stepState, set_keys, hdec, hlen] using h
  | register a f hOk r =>
    by_cases hpk : s.public_key = ""
    · cases a
      · cases hOk <;> simpa [stepState, register, generate_keys, hpk] using h
      · cases hOk <;> simp [stepState, register, generate_keys, hpk] at h
    · cases hOk <;> simpa [stepState, register, hpk] using h
  | deleteAgent hOk =>
    by_cases hag : s.agent_id = ""
    · simpa [stepState, delete_agent, hag] using h
    · cases hOk <;> simpa [stepState, delete_agent, hag] using h
  | send n t mt p r => rw [stepState, send_fst] at h; exact h
  | text n t txt => rw [stepState, send_fst] at h; exact h
  | pingMsg n t => rw [stepState, send_fst] at h; exact h
  | pong n t r => rw [stepState, send_fst] at h; exact h
  | requestMsg n t act d => rw [stepState, send_fst] at h; exact h
  | respond n t res r => rw [stepState, send_fst] at h; exact h
  | propose n t pr => rw [stepState, send_fst] at h; exact h
  | signatureMsg n t sg r => rw [stepState, send_fst] at h; exact h
  | getAgent a => exact h
  | directory => exact h
  | search q cp pv => exact h
  | contacts => exact h
  | addContact ci al no => exact h
  | removeContact ci => exact h
  | inbox ia => exact h
  | history oi li => exact h
  | ack mi => exact h

/-- Operations other than `generate_keys`, `set_keys` and `register` leave
the signing key exactly as it was. -/
theorem stepState_nonkey_preserves_key (c : Ed25519) (op : Op) (s : ClientState)
    (h : keyOp op = false) :
    (stepState c op s).signing_key = s.signing_key := by
  cases op with
  | generateKeys a f => simp [keyOp] at h
  | setKeys a k => simp [keyOp] at h
  | register a f hOk r => simp [keyOp] at h
  | deleteAgent hOk =>
    by_cases hag : s.agent_id = ""
    · simp [stepState, delete_agent, hag]
    · cases hOk <;> simp [stepState, delete_agent, hag]
  | send n t mt p r => rw [stepState, send_fst]
  | text n t txt => rw [stepState, send_fst]
  | pingMsg n t => rw [stepState, send_fst]
  | pong n t r => rw [stepState, send_fst]
  | requestMsg n t act d => rw [stepState, send_fst]
  | respond n t res r => rw [stepState, send_fst]
  | propose n t pr => rw [stepState, send_fst]
  | signatureMsg n t sg r => rw [stepState, send_fst]
  | getAgent a => rfl
  | directory => rfl
  | search q cp pv => rfl
  | contacts => rfl
  | addContact ci al no => rfl
  | removeContact ci => rfl
  | inbox ia => rfl
  | history oi li => rfl
  | ack mi => rfl

/-- Any change `register` makes to the signing key is the one its call to
`generate_keys` makes: the key after `register` is either unchanged or
exactly the key left by `generate_keys` on the same state. -/
theorem register_key_change_via_generate_keys (c : Ed25519) (a : Bool)
    (f : List Nat) (hOk : Bool) (r : String) (s : ClientState) :
    (register c a f hOk r s).1.signing_key = s.signing_key
    ∨ (register c a f hOk r s).1.signing_key =
        (generate_keys c a f s).1.signing_key := by
  by_cases hpk : s.public_key = ""
  · right
    simp only [register, if_pos hpk]
    rcases hg : generate_keys c a f s with ⟨s1, res⟩
    cases res <;> cases hOk <;> simp
  · left
    simp only [register, if_neg hpk]
    cases hOk <;> simp

/-- C8: state-machine invariant on the held key — the signing key has exactly
the two states `none` (unset) and `some seed` (set); an operation other than
`generate_keys` / `set_keys` / `register` leaves it unchanged, `register`
changes it only through its call to `generate_keys`, and no operation of the
client ever transitions it from set back to unset. -/
theorem signing_key_two_state_invariant (c : Ed25519) (op : Op) (s : ClientState) :
    ((stepState c op s).signing_key = Option.none → s.signing_key = Option.none)
    ∧ (keyOp op = false → (stepState c op s).signing_key = s.signing_key)
    ∧ (∀ a f hOk r, op = Op.register a f hOk r →
        (stepState c op s).signing_key = s.signing_key
        ∨ (stepState c op s).signing_key = (generate_keys c a f s).1.signing_key) :=
  ⟨stepState_never_unsets_key c op s,
   stepState_nonkey_preserves_key c op s,
   fun a f hOk r heq => by
     subst heq
     exact register_key_change_via_generate_keys c a f hOk r s⟩

/-- Closed instance of `signing_key_two_state_invariant`: the two implications
discharged at `delete_agent` on a keyed state, and the `register` clause at a
`register` operation. -/
theorem signing_key_two_state_invariant_witness :
    (stepState cZero (Op.deleteAgent true) stReg).signing_key = stReg.signing_key
    ∧ ((stepState cZero (Op.register true [7] true "agent-C") stFresh).signing_key =
          stFresh.signing_key
      ∨ (stepState cZero (Op.register true [7] true "agent-C") stFresh).signing_key =
          (generate_keys cZero true [7] stFresh).1.signing_key) :=
  ⟨(signing_key_two_state_invariant cZero (Op.deleteAgent true) stReg).2.1 rfl,
   (signing_key_two_state_invariant cZero (Op.register true [7] true "agent-C") stFresh).2.2
     true [7] true "agent-C" rfl⟩

/-- C9: when PyNaCl is absent (`NACL_AVAILABLE` false), both `generate_keys`
and `set_keys` fail with the `PingError` whose message names the missing
dependency (`"PyNaCl not installed. Run: pip install pynacl"`), leaving the
state unchanged, rather than crashing with an unrelated exception. -/
theorem nacl_unavailable_fails_with_ping_error
    (c : Ed25519) (f : List Nat) (k : String) (s s2 : ClientState) :
    generate_keys c false f s = (s, .error pynaclMissingError)
    ∧ set_keys c false k s2 = (s2, .error pynaclMissingError)
    ∧ pynaclMissingError =
        .ping "PyNaCl not installed. Run: pip install pynacl" 500
    ∧ pynaclMissingError.isPingError = true :=
  ⟨rfl, rfl, rfl, rfl⟩

/-- C10: atomicity of failed sends — when `send`'s precondition checks fail
(empty agent id or unset signing key), the client state is returned exactly
as it was (so `base_url`, `agent_id`, the signing key and the public key are
unchanged), the result is one of the two precondition `PingError`s, and no
signed envelope (hence no signature) is produced. -/
theorem failed_send_leaves_state_unchanged
    (c : Ed25519) (nowMs : Int) (s : ClientState) (to_agent msg_type : String)
    (payload : Option PyDict) (reply_to : Option String)
    (h : s.agent_id = "" ∨ s.signing_key = Option.none) :
    (send c nowMs s to_agent msg_type payload reply_to).1 = s
    ∧ ((send c nowMs s to_agent msg_type payload reply_to).2 =
          .error mustRegisterError
      ∨ (send c nowMs s to_agent msg_type payload reply_to).2 =
          .error keyNotConfiguredError)
    ∧ ∀ b : PyDict, (send c nowMs s to_agent msg_type payload reply_to).2 ≠ .ok b := by
  have h2 : (send c nowMs s to_agent msg_type payload reply_to).2 =
        .error mustRegisterError
      ∨ (send c nowMs s to_agent msg_type payload reply_to).2 =
        .error keyNotConfiguredError := by
    by_cases hag : s.agent_id = ""
    · left; simp [send, hag]
    · rcases h with h | hk
      · exact absurd h hag
      · right; simp [send, if_neg hag, hk]
  refine ⟨send_fst c nowMs s to_agent msg_type payload reply_to, h2, ?_⟩
  intro b hb
  rcases h2 with h2 | h2 <;> rw [h2] at hb <;> exact Except.noConfusion hb

/-- Closed instance of `failed_send_leaves_state_unchanged` at a fresh state,
with the hypothesis evaluated. -/
theorem failed_send_leaves_state_unchanged_witness :
    (stFresh.agent_id = "" ∨ stFresh.signing_key = Option.none)
    ∧ ((send cZero 0 stFresh "agent-B" "text" Option.none Option.none).1 = stFresh
      ∧ ((send cZero 0 stFresh "agent-B" "text" Option.none Option.none).2 =
            .error mustRegisterError
        ∨ (send cZero 0 stFresh "agent-B" "text" Option.none Option.none).2 =
            .error keyNotConfiguredError)
      ∧ ∀ b : PyDict, (send cZero 0 stFresh "agent-B" "text" Option.none Option.none).2 ≠
          .ok b) :=
  ⟨Or.inl rfl,
   failed_send_leaves_state_unchanged cZero 0 stFresh "agent-B" "text"
     Option.none Option.none (Or.inl rfl)⟩

end Ping
